import Mathlib

/-!
Shallow embedding of the OCP telemetry decoder of smartmontools-ocp
(`src/ocptelemetryprint.cpp`, `lib/ocptelemetry.cpp`,
`include/smartmon/ocptelemetry.h`) together with proofs settling the
frozen claims about it.

Buffers (`uint8_t *`) are modelled as `List Nat` of byte values; machine
integers are `Nat` with explicit `% 2^64` where `size_t`/`uint64_t`
wrap-around matters.
-/

namespace OcpTelemetry

/-- `2^64`, the modulus of `size_t` / `uint64_t` arithmetic on the target. -/
def UINT64_MOD : Nat := 2 ^ 64

/-- Wrapping `size_t` subtraction `a - b` (modulo `2^64`). -/
def wsub64 (a b : Nat) : Nat := (a + (UINT64_MOD - b % UINT64_MOD)) % UINT64_MOD

/-- Wrapping `uint64_t` addition `a + b` (modulo `2^64`). -/
def add64 (a b : Nat) : Nat := (a + b) % UINT64_MOD

/-- Byte access into a raw buffer (`uint8_t *`); reads beyond the end of the
modelled buffer yield 0. -/
def bget (buf : List Nat) (i : Nat) : Nat := buf.getD i 0

/-- Model of `sg_get_unaligned_le16(&buf[off])`. -/
def le16 (buf : List Nat) (off : Nat) : Nat :=
  bget buf off + ((bget buf (off + 1)) <<< 8)

/-- Model of `sg_get_unaligned_le32(&buf[off])`. -/
def le32 (buf : List Nat) (off : Nat) : Nat :=
  bget buf off + ((bget buf (off + 1)) <<< 8) + ((bget buf (off + 2)) <<< 16) +
    ((bget buf (off + 3)) <<< 24)

/-- Model of `sg_get_unaligned_be16(&buf[off])`. -/
def be16 (buf : List Nat) (off : Nat) : Nat :=
  ((bget buf off) <<< 8) + bget buf (off + 1)

/-- Model of `sg_get_unaligned_be32(&buf[off])`. -/
def be32 (buf : List Nat) (off : Nat) : Nat :=
  ((bget buf off) <<< 24) + ((bget buf (off + 1)) <<< 16) +
    ((bget buf (off + 2)) <<< 8) + bget buf (off + 3)

/-- Model of `ocp_telemetry_timestamp_to_uint64` (ocptelemetryprint.cpp:29-46).
The six timestamp bytes come in as a buffer, `timestamp_info` as the raw
16-bit value.  Returns the millisecond count together with a flag recording
whether the unknown-protocol diagnostic (`pout`) was emitted.  All arithmetic
stays below `2^48`, so the `uint64_t` accumulator never wraps. -/
def ocp_telemetry_timestamp_to_uint64 (timestamp : List Nat)
    (timestamp_info : Nat) : Nat × Bool :=
  let protocol := (timestamp_info &&& 0x30) >>> 4
  if protocol = 1 then
    (((be32 timestamp 0) <<< 16) + be16 timestamp 4, false)
  else if protocol = 2 then
    (((le32 timestamp 2) <<< 16) + le16 timestamp 0, false)
  else
    (0, true)

/-- Upper-case hex digit for a nibble, as produced by `snprintf("%02X")`. -/
def hexDigit (n : Nat) : Char :=
  if n < 10 then Char.ofNat (48 + n) else Char.ofNat (55 + n)

/-- The two `%02X` digits of one byte. -/
def byteToHex (b : Nat) : List Char :=
  [hexDigit (b / 16), hexDigit (b % 16)]

/-- Model of `ocp_guid_to_str` (ocptelemetryprint.cpp:48-53): the loop writes
byte `OCP_GUID_LEN - i - 1` at character position `2*i`, i.e. it renders the
bytes in reversed order, then appends the suffix `h`. -/
def ocp_guid_to_str (guid : List Nat) : List Char :=
  (guid.reverse.map byteToHex).flatten ++ ['h']

/-- Numeric value of an upper-case hex digit (inverse of `hexDigit`). -/
def hexVal (c : Char) : Nat :=
  if c.toNat ≤ 57 then c.toNat - 48 else c.toNat - 55

/-- Parse consecutive hex digit pairs back into bytes. -/
def hexPairsToBytes : List Char → List Nat
  | c1 :: c2 :: rest => (hexVal c1 * 16 + hexVal c2) :: hexPairsToBytes rest
  | _ => []

/-- Model of the do-while scan in `ocp_ascii_to_c_str`
(ocptelemetryprint.cpp:55-72), called with `i = size - 1`: the loop walks
backwards and returns `i + 1` at the first non-space byte, exiting with 0 as
soon as the decrement reaches index 0 (index 0 itself is only examined when
`size = 1`).  In the C source, a single-byte buffer holding a space makes
`--i` underflow `size_t` and the loop reads out of bounds (undefined
behaviour); the model exits the scan with 0 at that point instead. -/
def ocp_trim_scan (data : List Nat) : Nat → Nat
  | 0 => if bget data 0 ≠ 32 then 1 else 0
  | i + 1 =>
    if bget data (i + 1) ≠ 32 then i + 2
    else if i = 0 then 0 else ocp_trim_scan data i

/-- Model of `ocp_ascii_to_c_str` (ocptelemetryprint.cpp:55-72): the returned
list holds the bytes copied in front of the terminating NUL. -/
def ocp_ascii_to_c_str (data : List Nat) (len : Nat) : List Nat :=
  let i := ocp_trim_scan data (data.length - 1)
  data.take (min i (len - 1))

/-- Trailing-space trimming as the specification words it: the buffer contents
with all trailing space bytes removed. -/
def rtrimSpaces (data : List Nat) : List Nat :=
  (data.reverse.dropWhile (fun b => b = 32)).reverse

/-- The named fields of `struct ocp_telemetry_data_header`
(ocptelemetry.h:59-78); the reserved byte ranges are omitted.  All
multi-byte fields are `uint16_t`/`uint64_t` values, modelled as `Nat`;
`timestamp`, `guid` and `firmware_version` are raw byte arrays. -/
structure OcpTelemetryDataHeader where
  major_version : Nat := 0
  minor_version : Nat := 0
  timestamp : List Nat := []
  timestamp_info : Nat := 0
  guid : List Nat := []
  device_string_data_size : Nat := 0
  firmware_version : List Nat := []
  statistic1_start_dword : Nat := 0
  statistic1_size_dword : Nat := 0
  statistic2_start_dword : Nat := 0
  statistic2_size_dword : Nat := 0
  event1_FIFO_start_dword : Nat := 0
  event1_FIFO_size_dword : Nat := 0
  event2_FIFO_start_dword : Nat := 0
  event2_FIFO_size_dword : Nat := 0
deriving Repr, DecidableEq

/-- Model of `validate_ocp_telemetry_data_header` (ocptelemetry.cpp:46-72).
`max_dword` starts at `sizeof *header = 512`.  The `start + size` sums are
`uint64_t` additions and wrap mod `2^64`.  In `ceil(max_dword/128)`, the
division is integer division of `size_t` values, so `ceil` is applied to an
already-truncated quotient and is the identity: the bound checked is
`max_dword / 128 + 1` with flooring division. -/
def validate_ocp_telemetry_data_header (h : OcpTelemetryDataHeader)
    (nsectors : Nat) : Bool :=
  let max0 : Nat := 512
  let max1 :=
    if 0 < h.statistic2_size_dword ∧
        max0 < add64 h.statistic2_start_dword h.statistic2_size_dword then
      add64 h.statistic2_start_dword h.statistic2_size_dword
    else if 0 < h.statistic1_size_dword ∧
        max0 < add64 h.statistic1_start_dword h.statistic1_size_dword then
      add64 h.statistic1_start_dword h.statistic1_size_dword
    else max0
  let max2 :=
    if 0 < h.event2_FIFO_size_dword ∧
        max1 < add64 h.event2_FIFO_start_dword h.event2_FIFO_size_dword then
      add64 h.event2_FIFO_start_dword h.event2_FIFO_size_dword
    else if 0 < h.event1_FIFO_size_dword ∧
        max1 < add64 h.event1_FIFO_start_dword h.event1_FIFO_size_dword then
      add64 h.event1_FIFO_start_dword h.event1_FIFO_size_dword
    else max1
  if nsectors < max2 / 128 + 1 then false else true

/-- The first else-if chain of `validate_ocp_telemetry_data_header`, written
out so the amended claim C3 can refer to it: starting from the 512-byte
header size, S2's extent is taken when S2 is non-empty and its extent
exceeds 512, otherwise S1's extent under the same test. -/
def validatorStatMax (h : OcpTelemetryDataHeader) : Nat :=
  if 0 < h.statistic2_size_dword ∧
      512 < add64 h.statistic2_start_dword h.statistic2_size_dword then
    add64 h.statistic2_start_dword h.statistic2_size_dword
  else if 0 < h.statistic1_size_dword ∧
      512 < add64 h.statistic1_start_dword h.statistic1_size_dword then
    add64 h.statistic1_start_dword h.statistic1_size_dword
  else 512

/-- The second else-if chain of the validator: E2's extent, otherwise E1's,
against the statistics maximum. -/
def validatorMaxDword (h : OcpTelemetryDataHeader) : Nat :=
  if 0 < h.event2_FIFO_size_dword ∧
      validatorStatMax h < add64 h.event2_FIFO_start_dword h.event2_FIFO_size_dword then
    add64 h.event2_FIFO_start_dword h.event2_FIFO_size_dword
  else if 0 < h.event1_FIFO_size_dword ∧
      validatorStatMax h < add64 h.event1_FIFO_start_dword h.event1_FIFO_size_dword then
    add64 h.event1_FIFO_start_dword h.event1_FIFO_size_dword
  else validatorStatMax h

/-- The `max_dword` of claim C3 as the claim words it: the maximum of the
header size (the floor), S2's extent, S1's extent considered only when S2 is
empty, E2's extent, and E1's extent considered only when E2 is empty (absent
regions, i.e. regions of size 0, contribute nothing). -/
def claimC3MaxDword (h : OcpTelemetryDataHeader) : Nat :=
  max 512 (max
    (if 0 < h.statistic2_size_dword then
      add64 h.statistic2_start_dword h.statistic2_size_dword else 0)
    (max
      (if h.statistic2_size_dword = 0 ∧ 0 < h.statistic1_size_dword then
        add64 h.statistic1_start_dword h.statistic1_size_dword else 0)
      (max
        (if 0 < h.event2_FIFO_size_dword then
          add64 h.event2_FIFO_start_dword h.event2_FIFO_size_dword else 0)
        (if h.event2_FIFO_size_dword = 0 ∧ 0 < h.event1_FIFO_size_dword then
          add64 h.event1_FIFO_start_dword h.event1_FIFO_size_dword else 0))))

/-- Mathematical ceiling division, for stating claim C3's
`ceil(max_dword / 128)` literally. -/
def ceilDiv128 (n : Nat) : Nat := (n + 127) / 128

/-- Control flow of `read_ata_ocp_telemetry_statistics`
(ocptelemetry.cpp:203-234) up to and including the header validation:
the decode aborts (returns false) when `area1_last_log_page` is 0 and when
`validate_ocp_telemetry_data_header` rejects.  Device read failures and the
region fetching that follow are outside the model. -/
def read_ata_ocp_telemetry_statistics_ok (area1_last_log_page : Nat)
    (h : OcpTelemetryDataHeader) (nsectors : Nat) : Bool :=
  if area1_last_log_page = 0 then false
  else validate_ocp_telemetry_data_header h nsectors

/-- Model of `ocp_get_event_desc_dwords` (ocptelemetryprint.cpp:874-887).
`pos` is the dword index of the event descriptor inside `buf`; `max_size` is
the byte count still available (`dwords << 2` at the call site).  For class
0x0A (Statistic Snapshot) with at least `sizeof(ocp_event_descriptor) +
sizeof(ocp_statistic_header) = 4 + 8 = 12` bytes available, the embedded
statistic header's `statistic_data_size` (bytes 6..8 of the statistic header,
i.e. buffer offset `4*pos + 10`) completes the length `1 + 2 + size` dwords;
with fewer than 12 bytes available the function returns the byte count
`sizeof *e + sizeof *s = 12` itself.  Every other class yields
`1 + data_size` dwords. -/
def ocp_get_event_desc_dwords (buf : List Nat) (pos max_size : Nat) : Nat :=
  if bget buf (4 * pos) = 0x0A then
    if max_size < 12 then 12
    else 1 + 2 + le16 buf (4 * pos + 10)
  else 1 + bget buf (4 * pos + 3)

/-- One iteration of the `while (dwords)` loop of `ocp_print_telemetry_events`
(ocptelemetryprint.cpp:889-918): `none` when the walk stops (counter zero, or
`debug_event_class_type` 0 marking end of FIFO), otherwise the dwords
consumed and the new value of the wrapping `size_t` counter. -/
def ocp_event_walk_step (buf : List Nat) (pos dwords : Nat) :
    Option (Nat × Nat) :=
  if dwords = 0 then none
  else if bget buf (4 * pos) = 0 then none
  else
    let consumed := ocp_get_event_desc_dwords buf pos (dwords <<< 2)
    some (consumed, wsub64 dwords consumed)

/-- Model of `ocp_get_stat_type` (ocptelemetryprint.cpp:213-220): reject
(`none`) when the high nibble of `statistics_info[0]` exceeds
`OCP_STAT_TYPE_CUSTOM = 2`. -/
def ocp_get_stat_type (info_0 : Nat) : Option Nat :=
  let field_value := (info_0 >>> 4) &&& 0xf
  if 2 < field_value then none else some field_value

/-- Model of `ocp_get_data_type` (ocptelemetryprint.cpp:222-229): reject
(`none`) when the low nibble of `statistics_info[2]` exceeds
`OCP_DATA_TYPE_ASCII = 4`. -/
def ocp_get_data_type (info_2 : Nat) : Option Nat :=
  let field_value := info_2 &&& 0xf
  if 4 < field_value then none else some field_value

/-- Success flag of `ocp_print_stat_desc` (ocptelemetryprint.cpp:462-517):
`false` exactly when one of the two guard checks rejects the descriptor and
the "Malformed statistic(s) descriptor skipped" diagnostic is printed; the
body printing itself performs no further validation and always succeeds. -/
def ocp_print_stat_desc_ok (info_0 info_2 : Nat) : Bool :=
  match ocp_get_stat_type info_0, ocp_get_data_type info_2 with
  | some _, some _ => true
  | _, _ => false

/-- One statistic descriptor as observed by the walk of
`ocp_print_telemetry_statistics`: its dword position, the header fields read
from the buffer, and whether `ocp_print_stat_desc` decoded or skipped it. -/
structure StatRecView where
  pos : Nat
  id : Nat
  stat_type : Nat
  data_type : Nat
  data_size : Nat
  decoded : Bool
deriving Repr, DecidableEq

/-- Model of the `while (dwords)` loop of `ocp_print_telemetry_statistics`
(ocptelemetryprint.cpp:519-546).  `pos` is the current dword index,
`dwords` the remaining count — a `size_t`, so the `dwords -=
dwords_consumed` update wraps mod `2^64` (`wsub64`).  The 8-byte
`ocp_statistic_header` at dword `pos` supplies `statistics_id`
(`le16` at byte `4*pos`), `statistics_info[0]` and `[2]` (bytes `4*pos+2`,
`4*pos+4`) and `statistic_data_size` (`le16` at byte `4*pos+6`);
`dwords_consumed = (sizeof h >> 2) + statistic_data_size = 2 + size`.
`fuel` bounds the number of iterations of the model; the C loop has no such
bound. Returns the records walked, the final dword position and the final
counter value. -/
def ocp_stat_walk (buf : List Nat) :
    Nat → Nat → Nat → List StatRecView × Nat × Nat
  | 0, pos, dwords => ([], pos, dwords)
  | fuel + 1, pos, dwords =>
    if dwords = 0 then ([], pos, dwords)
    else if le16 buf (4 * pos) = 0 then ([], pos, dwords)
    else
      let info0 := bget buf (4 * pos + 2)
      let info2 := bget buf (4 * pos + 4)
      let dsize := le16 buf (4 * pos + 6)
      let consumed := 2 + dsize
      let r : StatRecView :=
        { pos := pos
          id := le16 buf (4 * pos)
          stat_type := (info0 >>> 4) &&& 0xf
          data_type := info2 &&& 0xf
          data_size := dsize
          decoded := ocp_print_stat_desc_ok info0 info2 }
      let rest := ocp_stat_walk buf fuel (pos + consumed) (wsub64 dwords consumed)
      (r :: rest.1, rest.2)

/-- Well-formedness of a statistics region with respect to the walk: at every
step reached before the zero sentinel or counter exhaustion, the record's
`2 + statistic_data_size` dwords fit into the remaining count, and the walk
finishes within `fuel` iterations. -/
def ocp_stat_walk_fits (buf : List Nat) : Nat → Nat → Nat → Bool
  | 0, pos, dwords => decide (dwords = 0) || decide (le16 buf (4 * pos) = 0)
  | fuel + 1, pos, dwords =>
    if dwords = 0 then true
    else if le16 buf (4 * pos) = 0 then true
    else
      let consumed := 2 + le16 buf (4 * pos + 6)
      decide (consumed ≤ dwords) &&
        ocp_stat_walk_fits buf fuel (pos + consumed) (dwords - consumed)

/-- Total dword length of the walked records, `2 + size` each. -/
def sumConsumed (recs : List StatRecView) : Nat :=
  (recs.map (fun r => 2 + r.data_size)).sum

/-- The record view read at dword `pos`, exactly as `ocp_stat_walk`
constructs it. -/
def statRecAt (buf : List Nat) (pos : Nat) : StatRecView :=
  { pos := pos
    id := le16 buf (4 * pos)
    stat_type := (bget buf (4 * pos + 2) >>> 4) &&& 0xf
    data_type := bget buf (4 * pos + 4) &&& 0xf
    data_size := le16 buf (4 * pos + 6)
    decoded := ocp_print_stat_desc_ok (bget buf (4 * pos + 2))
      (bget buf (4 * pos + 4)) }

/-- The dwords consumed by the record at `pos`:
`(sizeof(ocp_statistic_header) >> 2) + statistic_data_size`. -/
def statConsumedAt (buf : List Nat) (pos : Nat) : Nat :=
  2 + le16 buf (4 * pos + 6)

/-- A resolved name: either a C string literal / built-in table string copied
into the output buffer, or a byte slice copied out of the catalog's ASCII
blob. -/
inductive NameResult where
  | str (s : String)
  | bytes (l : List Nat)
deriving Repr, DecidableEq

/-- The compiled-in statistic name table `ocp_builtin_stat_str`
(ocptelemetry.h:278-360), as `(id, desc)` pairs in source order. -/
def ocp_builtin_stat_str : List (Nat × String) :=
  [(0x0002, "ATA Log"),
   (0x0003, "SCSI Log Page"),
   (0x2001, "Reallocated Block Count"),
   (0x2002, "Pending Defects Count"),
   (0x2003, "Power-on Hours Count"),
   (0x2004, "Power-on Cycle Count"),
   (0x2005, "Spare Blocks Used"),
   (0x2006, "Spare Blocks Remaining"),
   (0x2007, "Unexpected Power Loss Count"),
   (0x2008, "Current Temperature"),
   (0x2009, "Minimum Lifetime Temperature"),
   (0x200a, "Maximum Lifetime Temperature"),
   (0x200b, "Uncorrectable Read Error Count"),
   (0x200c, "Background Uncorrectable Read Error Count"),
   (0x200d, "Interface CRC Error Count"),
   (0x200e, "Volatile Memory Backup Source Failure"),
   (0x200f, "Read Only Mode"),
   (0x2010, "Host Write Commands"),
   (0x2011, "Host Read Commands"),
   (0x2012, "Logical Blocks Read"),
   (0x2013, "Logical Blocks Written"),
   (0x2014, "Total Media Writes"),
   (0x2015, "Total Media Reads"),
   (0x2016, "Soft ECC Error Count"),
   (0x2017, "Host Trim/Unmap Commands"),
   (0x2018, "End-to-end Detected Errors"),
   (0x2019, "End-to-end Corrected Errors"),
   (0x201a, "Unaligned I/O count"),
   (0x201b, "Security version number"),
   (0x201c, "Thermal Throttling Status"),
   (0x201d, "Thermal Throttling Count"),
   (0x201e, "DSS Specification Version"),
   (0x201f, "Incomplete Shutdown Count"),
   (0x2020, "Percent Free Blocks"),
   (0x2021, "Lowest Permitted Firmware Revision"),
   (0x2022, "Maximum Peak Power Capability"),
   (0x2023, "Current Maximum Average Power"),
   (0x2024, "Lifetime Power Consumed"),
   (0x2025, "Power Changes"),
   (0x2026, "Phy Reinitialization Count"),
   (0x2027, "Secondary Phy Reinitialization Count"),
   (0x2028, "Command Timeouts"),
   (0x2029, "Hardware Revision"),
   (0x202a, "Firmware Revision"),
   (0x4001, "Raw Capacity"),
   (0x4002, "User Capacity"),
   (0x4003, "Erase Count"),
   (0x4004, "Erase Fail Count"),
   (0x4005, "Maximum Erase Count"),
   (0x4006, "Average Erase Count"),
   (0x4007, "Program Fail Count"),
   (0x4008, "XOR Recovery Count"),
   (0x4009, "Percent Device Life Remaining"),
   (0x400a, "Lifetime Erase Count"),
   (0x400b, "Bad User NAND Blocks"),
   (0x400c, "Bad System NAND Blocks"),
   (0x400d, "Minimum Erase Count"),
   (0x400e, "Power Loss Protection Start Count"),
   (0x400f, "System Data Percent Used"),
   (0x4010, "Power Loss Protection Health"),
   (0x4011, "Endurance Estimate"),
   (0x4012, "Percent User Spare Available"),
   (0x4013, "Percent System Spare Available"),
   (0x4014, "Total Media Dies"),
   (0x4015, "Media Die Failure Tolerance"),
   (0x4016, "Media Dies Offline"),
   (0x4017, "System Area Program Fail Count"),
   (0x4018, "System Area Program Fail Percentage Remaining"),
   (0x4019, "System Area Uncorrectable Read Error Count"),
   (0x401a, "System Area Uncorrectable Read Percentage Remaining"),
   (0x401b, "System Area Erase Fail Count"),
   (0x401c, "System Area Erase Fail Percentage Remaining"),
   (0x6001, "Start/Stop Count"),
   (0x6002, "Load Cycle Count"),
   (0x6003, "Shock Overlimit Count"),
   (0x6004, "Head Flying Hours"),
   (0x6005, "Free Fall Events Count"),
   (0x6006, "Spinup Times")]

/-- The linear scan over `ocp_builtin_stat_str` performed by the first loop
of `ocp_stat_id_to_str` (ocptelemetryprint.cpp:233-238). -/
def ocp_builtin_stat_lookup (id : Nat) : Option String :=
  (ocp_builtin_stat_str.find? (fun e => e.1 == id)).map (fun e => e.2)

/-- The fields of `struct ocp_statistic_id_string_table_entry`
(ocptelemetry.h:110-116) consumed by name resolution; `ascii_id_offset` is
stored on the wire as 8 little-endian bytes and modelled as its decoded
`le64` value. -/
structure OcpStatisticIdStringTableEntry where
  ascii_id_len : Nat
  ascii_id_offset : Nat
deriving Repr, DecidableEq

/-- The fields of `struct ocp_event_id_string_table_entry`
(ocptelemetry.h:124-130) consumed by name resolution, with
`ascii_id_offset` decoded as for the statistic entries. -/
structure OcpEventIdStringTableEntry where
  ascii_id_len : Nat
  ascii_id_offset : Nat
deriving Repr, DecidableEq

/-- Model of `ocp_string_def` (ocptelemetry.h:703-709): the two `std::map`s
are modelled as association lists with unique keys (`List.lookup`), the
ASCII blob as a byte list. -/
structure OcpStringDef where
  stat_id_string_map : List (Nat × OcpStatisticIdStringTableEntry) := []
  event_string_map : List (Nat × OcpEventIdStringTableEntry) := []
  ocp_string_ascii_table : List Nat := []
deriving Repr, DecidableEq

/-- Model of `ocp_stat_id_to_str` (ocptelemetryprint.cpp:231-252): the
built-in table is scanned first; otherwise ids at or above 0x8000 are looked
up in the catalog's statistics-id map, slicing `ascii_id_len` bytes of the
ASCII blob at `ascii_id_offset` when present and falling back to
"Vendor Unique ID" when absent; all remaining ids resolve to "Reserved ID". -/
def ocp_stat_id_to_str (string_def : OcpStringDef) (id : Nat) : NameResult :=
  match ocp_builtin_stat_lookup id with
  | some desc => .str desc
  | none =>
    if 0x8000 ≤ id then
      match string_def.stat_id_string_map.lookup id with
      | some e =>
        .bytes ((string_def.ocp_string_ascii_table.drop e.ascii_id_offset).take
          e.ascii_id_len)
      | none => .str "Vendor Unique ID"
    else .str "Reserved ID"

/-- The `OCP_EVENT_KEY` macro (ocptelemetry.h:17):
`class << 16 | id[1] << 8 | id[0]`. -/
def OCP_EVENT_KEY (cls id0 id1 : Nat) : Nat :=
  (cls <<< 16) ||| (id1 <<< 8) ||| id0

/-- The built-in `ocp_virtual_fifo_event_id_str` table
(ocptelemetry.h:526-530). -/
def ocp_virtual_fifo_event_id_str : List String :=
  ["Virtual FIFO Start", "Virtual FIFO End"]

/-- Model of `event_id_to_str` (ocptelemetryprint.cpp:715-780) specialised to
class `OCP_EVENT_CLASS_VIRTUAL_FIFO = 0x0B`, the only class the virtual-FIFO
decode path consults.  Event ids up to `OCP_VIRTUAL_FIFO_EVENT_MAX = 1`
resolve through the built-in table; only then is the catalog consulted at
`OCP_EVENT_KEY(0x0B, id)`, copying `min(size-1, ascii_id_len)` blob bytes
(the output buffer holds `size = OCP_STR_BUF_SIZE = 256` characters); ids
absent from the catalog fall back to "Vendor Unique ID" at or above 0x8000
and "Reserved ID" below. -/
def event_id_to_str_0B (string_def : OcpStringDef) (id0 id1 : Nat) :
    NameResult :=
  let event_id := id0 + (id1 <<< 8)
  if event_id ≤ 1 then .str (ocp_virtual_fifo_event_id_str.getD event_id "")
  else
    match string_def.event_string_map.lookup (OCP_EVENT_KEY 0x0B id0 id1) with
    | some e =>
      .bytes ((string_def.ocp_string_ascii_table.drop e.ascii_id_offset).take
        (min 255 e.ascii_id_len))
    | none =>
      if 0x8000 ≤ event_id then .str "Vendor Unique ID"
      else .str "Reserved ID"

/-- The decoded output of the `OCP_EVENT_CLASS_VIRTUAL_FIFO` branch of
`print_event_desc` (ocptelemetryprint.cpp:832-847). -/
structure VirtualFifoDecode where
  number : Nat
  data_area : Nat
  name : NameResult
deriving Repr, DecidableEq

/-- Model of the `OCP_EVENT_CLASS_VIRTUAL_FIFO` branch of `print_event_desc`
(ocptelemetryprint.cpp:832-847): the body's 16-bit little-endian marker
`m = id0 + (id1 << 8)` yields fifo number `m & 0x7FF`, data area
`(m >> 11) & 0x7`, and the name resolved by `event_id_to_str` on the marker
bytes. -/
def print_event_desc_virtual_fifo (string_def : OcpStringDef)
    (b0 b1 : Nat) : VirtualFifoDecode :=
  let marker := b0 + (b1 <<< 8)
  { number := marker &&& 0x7ff
    data_area := (marker >>> 11) &&& 0x7
    name := event_id_to_str_0B string_def b0 b1 }

/-- Fixture: a telemetry data header whose only region is S2 with
`start + size = 513` dwords. -/
def hdrC3 : OcpTelemetryDataHeader := { statistic2_size_dword := 513 }

/-- Fixture: a telemetry data header with all four region sizes zero. -/
def hdrZero : OcpTelemetryDataHeader := {}

/-- Fixture: an event FIFO region of 2 dwords whose first event descriptor
announces class 0x0A (Statistic Snapshot), leaving fewer than the 12 bytes
needed for the event header plus the embedded statistic header. -/
def bufC2 : List Nat := [0x0A, 0, 0, 0, 0, 0, 0, 0]

/-- Fixture: a well-formed 6-dword statistics region — a 1-body-dword
descriptor (id 1), a 0-body-dword descriptor (id 2), then the zero
sentinel dword. -/
def bufC5ok : List Nat :=
  [1, 0, 0, 0, 0, 0, 1, 0, 9, 9, 9, 9,
   2, 0, 0, 0, 0, 0, 0, 0,
   0, 0, 0, 0]

/-- Fixture: a 3-dword statistics region whose single descriptor (id 1)
declares `statistic_data_size = 5`, i.e. a record of `2 + 5 = 7` dwords
overrunning the region. -/
def bufC5bad : List Nat := [1, 0, 0, 0, 0, 0, 5, 0, 0, 0, 0, 0]

/-- Fixture: an 8-dword statistics region holding a valid SINGLE/UINT
descriptor (id 1), a malformed descriptor with statistic type nibble 3
(id 2), a valid descriptor (id 3), and the zero sentinel. -/
def bufC4mid : List Nat :=
  [1, 0, 0, 0, 2, 0, 1, 0, 7, 0, 0, 0,
   2, 0, 0x30, 0, 0, 0, 0, 0,
   3, 0, 0, 0, 0, 0, 0, 0,
   0, 0, 0, 0]

/-- Fixture: an 8-dword statistics region holding one ARRAY/UINT descriptor
(id 5) declaring `statistic_data_size = 6` dwords while its body announces
`element_size = 0` and `number_of_elements = 0`, i.e. a 1-byte extent
disagreeing with the `6*4 - 4 = 20` body bytes of the header. -/
def bufC4arr : List Nat :=
  [5, 0, 0x10, 0, 2, 0, 6, 0,
   0, 0, 0, 0, 9, 0, 0, 0,
   0, 0, 0, 0, 0, 0, 0, 0,
   0, 0, 0, 0, 0, 0, 0, 0]

/-- Fixture: a strings catalog whose statistics-id map binds both an id that
is also in the built-in table (0x2003) and a vendor-unique id (0x8001) to a
2-byte slice at offset 1 of the ASCII blob `"ABCD"`. -/
def sdC6 : OcpStringDef :=
  { stat_id_string_map :=
      [(0x2003, { ascii_id_len := 2, ascii_id_offset := 1 }),
       (0x8001, { ascii_id_len := 2, ascii_id_offset := 1 })]
    ocp_string_ascii_table := [65, 66, 67, 68] }

/-- Fixture: a strings catalog whose event map binds the virtual-FIFO keys
`0x0B << 16 | 0x0000` and `0x0B << 16 | 0x0431` to the 3-byte ASCII blob
`"XYZ"`. -/
def sdC7 : OcpStringDef :=
  { event_string_map :=
      [(0x0B0000, { ascii_id_len := 3, ascii_id_offset := 0 }),
       (0x0B0431, { ascii_id_len := 3, ascii_id_offset := 0 })]
    ocp_string_ascii_table := [88, 89, 90] }

/-! Theorems.  Helper lemmas come first, then one theorem per claim together
with its witness or counterexample. -/

/-- The claim's protocol expression `(timestamp_info >> 4) & 0x3` agrees with
the source's `(timestamp_info & 0x30) >> 4`. -/
theorem and_48_shiftRight_4 (n : Nat) : (n &&& 48) >>> 4 = (n >>> 4) &&& 3 := by
  apply Nat.eq_of_testBit_eq
  intro i
  have h48 : (48 : Nat) = 3 <<< 4 := rfl
  simp only [Nat.testBit_shiftRight, Nat.testBit_and, h48, Nat.testBit_shiftLeft]
  have h4 : 4 ≤ 4 + i := Nat.le_add_right 4 i
  simp [h4, Nat.add_sub_cancel_left, Bool.and_comm]

/-- C1: for every 6-byte timestamp and 16-bit timestamp_info, with protocol
`(timestamp_info >> 4) & 0x3`, `ocp_telemetry_timestamp_to_uint64` returns
the big-endian 48-bit value `be32(timestamp[0..4]) * 2^16 +
be16(timestamp[4..6])` for protocol 1, the little-endian 48-bit value
`le32(timestamp[2..6]) * 2^16 + le16(timestamp[0..2])` for protocol 2, and 0
together with the diagnostic for every other protocol value. -/
theorem timestamp_normalisation (t0 t1 t2 t3 t4 t5 info : Nat) :
    ((info >>> 4) &&& 3 = 1 →
      ocp_telemetry_timestamp_to_uint64 [t0, t1, t2, t3, t4, t5] info =
        ((t0 * 0x1000000 + t1 * 0x10000 + t2 * 0x100 + t3) * 0x10000 +
          (t4 * 0x100 + t5), false)) ∧
    ((info >>> 4) &&& 3 = 2 →
      ocp_telemetry_timestamp_to_uint64 [t0, t1, t2, t3, t4, t5] info =
        ((t5 * 0x1000000 + t4 * 0x10000 + t3 * 0x100 + t2) * 0x10000 +
          (t1 * 0x100 + t0), false)) ∧
    ((info >>> 4) &&& 3 ≠ 1 → (info >>> 4) &&& 3 ≠ 2 →
      ocp_telemetry_timestamp_to_uint64 [t0, t1, t2, t3, t4, t5] info =
        (0, true)) := by
  unfold ocp_telemetry_timestamp_to_uint64
  rw [and_48_shiftRight_4]
  refine ⟨fun hp => ?_, fun hp => ?_, fun hp1 hp2 => ?_⟩
  · rw [if_pos hp]
    simp only [be32, be16, bget, List.getD_cons_zero, List.getD_cons_succ,
      Nat.shiftLeft_eq, Prod.mk.injEq]
  · rw [if_neg (by omega), if_pos hp]
    simp only [le32, le16, bget, List.getD_cons_zero, List.getD_cons_succ,
      Nat.shiftLeft_eq, Prod.mk.injEq]
    exact ⟨by ring, trivial⟩
  · rw [if_neg hp1, if_neg hp2]

/-- Witness for C1: timestamp bytes 01 02 03 04 05 06 with timestamp_info
0x0010 (protocol 1) give 0x010203040506 milliseconds. -/
theorem timestamp_normalisation_witness :
    ((0x0010 >>> 4) &&& 3 = 1) ∧
    ocp_telemetry_timestamp_to_uint64 [1, 2, 3, 4, 5, 6] 0x0010 =
      (0x010203040506, false) :=
  ⟨by decide,
   ((timestamp_normalisation 1 2 3 4 5 6 0x0010).1 (by decide)).trans (by decide)⟩

/-- C8 (code bug): decoding the non-empty ASCII buffer "a " is claimed to
preserve the byte at index 0 and strip the trailing space, i.e. produce "a";
the backwards scan of `ocp_ascii_to_c_str` exits with index 0 without ever
examining byte 0 once bytes 1.. are all spaces, so the code emits the empty
string instead. -/
theorem ascii_trim_drops_first_byte :
    ocp_ascii_to_c_str [97, 32] 16 = [] ∧
    rtrimSpaces [97, 32] = [97] ∧
    ([] : List Nat) ≠ [97] := by decide

/-- C2 (code bug): on the 2-dword FIFO region `bufC2` whose head event is
class 0x0A, fewer than 12 bytes remain, and the claim says the record is
reported as truncated and the walk stops.  Instead `ocp_get_event_desc_dwords`
returns 12 and the walk step subtracts it from the `size_t` counter 2, which
underflows to `2^64 - 10`: the loop guard `while (dwords)` stays true and the
walk continues past the end of the buffer with no truncation report. -/
theorem event_snapshot_truncation_no_stop :
    ocp_event_walk_step bufC2 0 2 = some (12, 2 ^ 64 - 10) ∧
    (2 : Nat) < 12 ∧ (2 ^ 64 - 10 : Nat) ≠ 0 := by decide

/-- C3 counterexample: for the header whose only region is S2 with extent
513 dwords and a budget of 5 sectors, `validate_ocp_telemetry_data_header`
accepts (it floors 513/128 to 4), while the claim's bound
`ceil(513/128) + 1 = 6` rejects — so the claimed equivalence fails. -/
theorem validator_ceil_counterexample :
    ¬ (validate_ocp_telemetry_data_header hdrC3 5 = true ↔
        ceilDiv128 (claimC3MaxDword hdrC3) + 1 ≤ 5) := by decide

/-- The validator is exactly the budget test against the `max_dword` of its
else-if chains. -/
theorem validate_eq_maxDword (h : OcpTelemetryDataHeader) (nsectors : Nat) :
    validate_ocp_telemetry_data_header h nsectors =
      if nsectors < validatorMaxDword h / 128 + 1 then false else true := rfl

/-- C3 (amended): validation of log 0x24 succeeds if and only if the sector
budget is at least `max_dword / 128 + 1` pages with flooring integer
division (not the mathematical ceiling), where `max_dword` is computed by
the validator's else-if chains (`validatorMaxDword`): starting from the
512-byte header size, S2's extent when S2 is non-empty and its extent
exceeds 512, otherwise S1's extent under the same test (so S1 is also
considered when S2 is non-empty but small); then likewise E2's extent,
otherwise E1's, against the current maximum.  On failure the decode of
`read_ata_ocp_telemetry_statistics` aborts. -/
theorem validator_budget_amended (h : OcpTelemetryDataHeader)
    (area1 nsectors : Nat) :
    (validate_ocp_telemetry_data_header h nsectors = true ↔
      validatorMaxDword h / 128 + 1 ≤ nsectors) ∧
    (validate_ocp_telemetry_data_header h nsectors = false →
      read_ata_ocp_telemetry_statistics_ok area1 h nsectors = false) := by
  constructor
  · rw [validate_eq_maxDword]
    split_ifs with hc
    · simp
      omega
    · simp
      omega
  · intro hv
    unfold read_ata_ocp_telemetry_statistics_ok
    split_ifs
    · rfl
    · exact hv

/-- Witness for C3: with the all-zero header (`max_dword = 512`, required
budget `512/128 + 1 = 5`) and a budget of 4 sectors, the validator rejects
and the statistics decode aborts. -/
theorem validator_budget_amended_witness :
    read_ata_ocp_telemetry_statistics_ok 1 hdrZero 4 = false :=
  (validator_budget_amended hdrZero 1 4).2 (by decide)

/-- C10: `validate_ocp_telemetry_data_header` initialises `max_dword` with
`sizeof *header = 512` bytes and then treats it as a dword count, so for
every header whose four region extents are each at most 512 dwords —
in particular one with all four region sizes zero — validation succeeds if
and only if the sector budget is at least `512/128 + 1 = 5` pages. -/
theorem validator_default_floor (h : OcpTelemetryDataHeader) (nsectors : Nat)
    (h1 : add64 h.statistic1_start_dword h.statistic1_size_dword ≤ 512)
    (h2 : add64 h.statistic2_start_dword h.statistic2_size_dword ≤ 512)
    (h3 : add64 h.event1_FIFO_start_dword h.event1_FIFO_size_dword ≤ 512)
    (h4 : add64 h.event2_FIFO_start_dword h.event2_FIFO_size_dword ≤ 512) :
    validate_ocp_telemetry_data_header h nsectors = true ↔ 5 ≤ nsectors := by
  rw [validate_eq_maxDword]
  have hstat : validatorStatMax h = 512 := by
    unfold validatorStatMax
    split_ifs <;> omega
  have hmax : validatorMaxDword h = 512 := by
    unfold validatorMaxDword
    rw [hstat]
    split_ifs <;> omega
  rw [hmax]
  split_ifs with hc
  · simp
    omega
  · simp
    omega

/-- Witness for C10: the all-zero header is accepted with a budget of
exactly 5 sectors. -/
theorem validator_default_floor_witness :
    validate_ocp_telemetry_data_header hdrZero 5 = true :=
  (validator_default_floor hdrZero 5 (by decide) (by decide) (by decide)
    (by decide)).mpr (by decide)

/-- `hexVal` inverts `hexDigit` on nibbles. -/
theorem hexVal_hexDigit (d : Nat) (hd : d < 16) : hexVal (hexDigit d) = d := by
  interval_cases d <;> rfl

/-- Parsing hex pairs inverts byte-wise hex rendering. -/
theorem hexPairsToBytes_flatten (l : List Nat) (hl : ∀ b ∈ l, b < 256) :
    hexPairsToBytes ((l.map byteToHex).flatten) = l := by
  induction l with
  | nil => rfl
  | cons b rest ih =>
    have hb : b < 256 := hl b (by simp)
    have h1 : b / 16 < 16 := by omega
    have h2 : b % 16 < 16 := by omega
    simp only [List.map_cons, List.flatten_cons, byteToHex, List.cons_append,
      List.nil_append, hexPairsToBytes, hexVal_hexDigit _ h1,
      hexVal_hexDigit _ h2]
    rw [show ([] : List Char).append ((rest.map byteToHex).flatten) =
        (rest.map byteToHex).flatten from rfl,
      ih (fun x hx => hl x (by simp [hx]))]
    congr 1
    omega

/-- C9: the rendered GUID consists of the 16 bytes printed as two hex digits
each in reversed order followed by the suffix `h` — 33 characters in all —
and reversing the hex byte pairs recovers the original 16-byte array. -/
theorem guid_render_reversible (guid : List Nat) (hlen : guid.length = 16)
    (hbytes : ∀ b ∈ guid, b < 256) :
    (ocp_guid_to_str guid).length = 33 ∧
    (hexPairsToBytes (ocp_guid_to_str guid).dropLast).reverse = guid := by
  constructor
  · simp [ocp_guid_to_str, List.length_flatten, Function.comp_def, byteToHex,
      List.map_const, hlen]
  · rw [ocp_guid_to_str, List.dropLast_concat,
      hexPairsToBytes_flatten _ (fun b hb => hbytes b (List.mem_reverse.mp hb)),
      List.reverse_reverse]

/-- Witness for C9 at a concrete 16-byte GUID. -/
theorem guid_render_reversible_witness :
    (ocp_guid_to_str
        [0, 1, 2, 3, 4, 5, 6, 7, 8, 9, 10, 11, 12, 13, 14, 255]).length = 33 ∧
    (hexPairsToBytes (ocp_guid_to_str
        [0, 1, 2, 3, 4, 5, 6, 7, 8, 9, 10, 11, 12, 13, 14, 255]).dropLast).reverse =
      [0, 1, 2, 3, 4, 5, 6, 7, 8, 9, 10, 11, 12, 13, 14, 255] :=
  guid_render_reversible [0, 1, 2, 3, 4, 5, 6, 7, 8, 9, 10, 11, 12, 13, 14, 255]
    (by decide) (by decide)

/-- C6: statistic-name resolution searches the built-in table first and
returns that name when found — so for an id present both there and in the
catalog, the built-in name wins; otherwise ids at or above 0x8000 resolve
through the catalog's statistics-id map to the `ascii_id_len`-byte slice of
the ASCII blob at `ascii_id_offset`, or to "Vendor Unique ID" when absent;
all remaining ids resolve to "Reserved ID". -/
theorem stat_id_resolution (sd : OcpStringDef) (id : Nat) :
    (∀ s, ocp_builtin_stat_lookup id = some s →
      ocp_stat_id_to_str sd id = .str s) ∧
    (ocp_builtin_stat_lookup id = none → 0x8000 ≤ id →
      ∀ e, sd.stat_id_string_map.lookup id = some e →
        ocp_stat_id_to_str sd id =
          .bytes ((sd.ocp_string_ascii_table.drop e.ascii_id_offset).take
            e.ascii_id_len)) ∧
    (ocp_builtin_stat_lookup id = none → 0x8000 ≤ id →
      sd.stat_id_string_map.lookup id = none →
      ocp_stat_id_to_str sd id = .str "Vendor Unique ID") ∧
    (ocp_builtin_stat_lookup id = none → id < 0x8000 →
      ocp_stat_id_to_str sd id = .str "Reserved ID") := by
  unfold ocp_stat_id_to_str
  refine ⟨fun s hs => ?_, fun hb hge e he => ?_, fun hb hge he => ?_,
    fun hb hlt => ?_⟩
  · rw [hs]
  · rw [hb, he]
    simp [hge]
  · rw [hb, he]
    simp [hge]
  · rw [hb]
    simp [Nat.not_le.mpr hlt]

/-- Witness for C6: with catalog `sdC6` — which also binds 0x2003 — the
built-in name wins for 0x2003, 0x8001 resolves to its catalog slice, 0x8002
to "Vendor Unique ID" and 0x7123 to "Reserved ID". -/
theorem stat_id_resolution_witness :
    ocp_stat_id_to_str sdC6 0x2003 = .str "Power-on Hours Count" ∧
    ocp_stat_id_to_str sdC6 0x8001 = .bytes [66, 67] ∧
    ocp_stat_id_to_str sdC6 0x8002 = .str "Vendor Unique ID" ∧
    ocp_stat_id_to_str sdC6 0x7123 = .str "Reserved ID" :=
  ⟨(stat_id_resolution sdC6 0x2003).1 "Power-on Hours Count" (by decide),
   ((stat_id_resolution sdC6 0x8001).2.1 (by decide) (by decide)
     ⟨2, 1⟩ (by decide)).trans (by decide),
   (stat_id_resolution sdC6 0x8002).2.2.1 (by decide) (by decide) (by decide),
   (stat_id_resolution sdC6 0x7123).2.2.2 (by decide) (by decide)⟩

/-- Bitwise or of a left shift with a value fitting below the shift is
addition. -/
theorem shiftLeft_or_eq_add (a b k : Nat) (hb : b < 2 ^ k) :
    (a <<< k) ||| b = a * 2 ^ k + b := by
  apply Nat.eq_of_testBit_eq
  intro i
  rw [Nat.testBit_or, Nat.testBit_shiftLeft, Nat.mul_comm,
    Nat.testBit_mul_pow_two_add a hb i]
  by_cases h : i < k
  · simp [h, Nat.not_le.mpr h]
  · have hge : k ≤ i := Nat.not_lt.mp h
    have hbf : b.testBit i = false :=
      Nat.testBit_lt_two_pow
        (lt_of_lt_of_le hb (Nat.pow_le_pow_right (by norm_num) hge))
    simp [h, hge, hbf]

/-- The `OCP_EVENT_KEY` macro value for byte-valued event ids equals the
claim's arithmetic form `class * 2^16 + id_le16`. -/
theorem OCP_EVENT_KEY_eq (cls b0 b1 : Nat) (h0 : b0 < 256) (h1 : b1 < 256) :
    OCP_EVENT_KEY cls b0 b1 = cls * 65536 + (b0 + (b1 <<< 8)) := by
  unfold OCP_EVENT_KEY
  rw [Nat.or_assoc, shiftLeft_or_eq_add b1 b0 8 h0,
    shiftLeft_or_eq_add cls (b1 * 2 ^ 8 + b0) 16 (by norm_num; omega)]
  rw [Nat.shiftLeft_eq]
  norm_num
  ring

/-- C7 counterexample: the virtual-FIFO marker 0x0000 is present in catalog
`sdC7` under key `0x0B << 16 | 0x0000`, yet the decoder resolves the name
through the built-in `ocp_virtual_fifo_event_id_str` table to
"Virtual FIFO Start" and never consults the catalog, contradicting the
claimed for-every-event catalog lookup; moreover for the claim's own marker
bytes 0x31 0x04 the reported fifo number is `0x0431 & 0x7FF = 0x431`, not
the claimed 0x031. -/
theorem virtual_fifo_builtin_shadows_catalog :
    sdC7.event_string_map.lookup (OCP_EVENT_KEY 0x0B 0 0) =
      some { ascii_id_len := 3, ascii_id_offset := 0 } ∧
    (print_event_desc_virtual_fifo sdC7 0 0).name = .str "Virtual FIFO Start" ∧
    (print_event_desc_virtual_fifo sdC7 0 0).name ≠ .bytes [88, 89, 90] ∧
    (print_event_desc_virtual_fifo sdC7 0x31 0x04).number = 0x431 ∧
    (0x431 : Nat) ≠ 0x031 := by
  decide

/-- C7 (amended): for every Virtual FIFO event whose body begins with the
16-bit little-endian marker `m`, the decoder reports fifo number
`m & 0x7FF` and data area `(m >> 11) & 0x7`; markers 0 and 1 resolve to the
built-in virtual-FIFO event names, and every other marker is looked up as
the event id under key `(0x0B << 16) | m` — the value of
`OCP_EVENT_KEY(0x0B, marker)` — in the event-string map, falling back to
"Vendor Unique ID" (marker ≥ 0x8000) or "Reserved ID" when absent. -/
theorem virtual_fifo_decode_amended (sd : OcpStringDef) (b0 b1 : Nat)
    (h0 : b0 < 256) (h1 : b1 < 256) :
    (print_event_desc_virtual_fifo sd b0 b1).number =
      (b0 + (b1 <<< 8)) &&& 0x7ff ∧
    (print_event_desc_virtual_fifo sd b0 b1).data_area =
      ((b0 + (b1 <<< 8)) >>> 11) &&& 0x7 ∧
    OCP_EVENT_KEY 0x0B b0 b1 = 0x0B * 65536 + (b0 + (b1 <<< 8)) ∧
    (1 < b0 + (b1 <<< 8) →
      (print_event_desc_virtual_fifo sd b0 b1).name =
        match sd.event_string_map.lookup (0x0B * 65536 + (b0 + (b1 <<< 8))) with
        | some e =>
          .bytes ((sd.ocp_string_ascii_table.drop e.ascii_id_offset).take
            (min 255 e.ascii_id_len))
        | none =>
          if 0x8000 ≤ b0 + (b1 <<< 8) then NameResult.str "Vendor Unique ID"
          else NameResult.str "Reserved ID") ∧
    (b0 + (b1 <<< 8) ≤ 1 →
      (print_event_desc_virtual_fifo sd b0 b1).name =
        .str (ocp_virtual_fifo_event_id_str.getD (b0 + (b1 <<< 8)) "")) := by
  refine ⟨rfl, rfl, OCP_EVENT_KEY_eq 0x0B b0 b1 h0 h1, fun hm => ?_,
    fun hm => ?_⟩
  · show event_id_to_str_0B sd b0 b1 = _
    unfold event_id_to_str_0B
    rw [if_neg (by omega), OCP_EVENT_KEY_eq 0x0B b0 b1 h0 h1]
  · show event_id_to_str_0B sd b0 b1 = _
    unfold event_id_to_str_0B
    rw [if_pos hm]

/-- Witness for C7: marker bytes 31 04 (marker 0x0431) give data area 0,
fifo number 0x431, and the name stored in catalog `sdC7` under key
`0x0B0431`. -/
theorem virtual_fifo_decode_amended_witness :
    (print_event_desc_virtual_fifo sdC7 0x31 0x04).number = 0x431 ∧
    (print_event_desc_virtual_fifo sdC7 0x31 0x04).data_area = 0 ∧
    (print_event_desc_virtual_fifo sdC7 0x31 0x04).name = .bytes [88, 89, 90] :=
  ⟨((virtual_fifo_decode_amended sdC7 0x31 0x04 (by decide) (by decide)).1).trans
     (by decide),
   ((virtual_fifo_decode_amended sdC7 0x31 0x04 (by decide) (by decide)).2.1).trans
     (by decide),
   ((virtual_fifo_decode_amended sdC7 0x31 0x04 (by decide) (by decide)).2.2.2.1
     (by decide)).trans (by decide)⟩

/-- Wrapping `size_t` subtraction agrees with truncated subtraction when the
subtrahend fits. -/
theorem wsub64_of_le (a b : Nat) (ha : a < UINT64_MOD) (hb : b ≤ a) :
    wsub64 a b = a - b := by
  unfold wsub64 UINT64_MOD at *
  have hb2 : b % 2 ^ 64 = b := Nat.mod_eq_of_lt (lt_of_le_of_lt hb ha)
  rw [hb2]
  omega

/-- `ocp_print_stat_desc` skips a descriptor exactly when its statistic type
nibble exceeds 2 or its data type nibble exceeds 4. -/
theorem ocp_print_stat_desc_ok_iff (info_0 info_2 : Nat) :
    ocp_print_stat_desc_ok info_0 info_2 = false ↔
      2 < ((info_0 >>> 4) &&& 0xf) ∨ 4 < (info_2 &&& 0xf) := by
  unfold ocp_print_stat_desc_ok ocp_get_stat_type ocp_get_data_type
  by_cases h1 : 2 < info_0 >>> 4 &&& 15 <;> by_cases h2 : 4 < info_2 &&& 15 <;>
    simp [h1, h2]

/-- The statistics walk stops as soon as the counter is zero or the
descriptor id at the current position is the zero sentinel. -/
theorem ocp_stat_walk_stop (buf : List Nat) (fuel pos dwords : Nat)
    (h : dwords = 0 ∨ le16 buf (4 * pos) = 0) :
    ocp_stat_walk buf fuel pos dwords = ([], pos, dwords) := by
  cases fuel with
  | zero => rfl
  | succ fuel =>
    unfold ocp_stat_walk
    rcases h with h | h
    · rw [if_pos h]
    · by_cases hd : dwords = 0
      · rw [if_pos hd]
      · rw [if_neg hd, if_pos h]

/-- Record list of one non-stopping step of the statistics walk. -/
theorem ocp_stat_walk_fst_cons (buf : List Nat) (fuel pos dwords : Nat)
    (hd : dwords ≠ 0) (hid : le16 buf (4 * pos) ≠ 0) :
    (ocp_stat_walk buf (fuel + 1) pos dwords).1 =
      statRecAt buf pos ::
        (ocp_stat_walk buf fuel (pos + statConsumedAt buf pos)
          (wsub64 dwords (statConsumedAt buf pos))).1 := by
  conv_lhs => rw [ocp_stat_walk]
  rw [if_neg hd, if_neg hid]
  rfl

/-- Final state of one non-stopping step of the statistics walk. -/
theorem ocp_stat_walk_snd_cons (buf : List Nat) (fuel pos dwords : Nat)
    (hd : dwords ≠ 0) (hid : le16 buf (4 * pos) ≠ 0) :
    (ocp_stat_walk buf (fuel + 1) pos dwords).2 =
      (ocp_stat_walk buf fuel (pos + statConsumedAt buf pos)
        (wsub64 dwords (statConsumedAt buf pos))).2 := by
  conv_lhs => rw [ocp_stat_walk]
  rw [if_neg hd, if_neg hid]
  rfl

/-- The first record returned by the statistics walk sits at the walk's
starting position. -/
theorem ocp_stat_walk_head_pos (buf : List Nat) (fuel pos dwords : Nat) :
    ∀ y ∈ ((ocp_stat_walk buf fuel pos dwords).1).head?, y.pos = pos := by
  intro y hy
  cases fuel with
  | zero => simp [ocp_stat_walk] at hy
  | succ fuel =>
    by_cases hd : dwords = 0
    · rw [ocp_stat_walk_stop buf _ pos dwords (Or.inl hd)] at hy
      simp at hy
    · by_cases hid : le16 buf (4 * pos) = 0
      · rw [ocp_stat_walk_stop buf _ pos dwords (Or.inr hid)] at hy
        simp at hy
      · rw [ocp_stat_walk_fst_cons buf fuel pos dwords hd hid] at hy
        simp at hy
        subst hy
        rfl

/-- C4 (amended): every record the statistics walk reports is marked skipped
exactly when its statistic type nibble exceeds 2 or its data type nibble
exceeds 4 (each such skip prints a diagnostic), and — decoded or skipped —
the walk advances past every record by its declared `2 + statistic_data_size`
dwords, so records before and after a skipped one are still walked and
decoded; an ARRAY descriptor whose body extent disagrees with its header's
declared size is not validated and is decoded normally. -/
theorem stat_walk_malformed_skip (buf : List Nat) (fuel pos dwords : Nat) :
    (∀ r ∈ (ocp_stat_walk buf fuel pos dwords).1,
      (r.decoded = false ↔ 2 < r.stat_type ∨ 4 < r.data_type)) ∧
    ((ocp_stat_walk buf fuel pos dwords).1).Chain'
      (fun a b => b.pos = a.pos + (2 + a.data_size)) := by
  induction fuel generalizing pos dwords with
  | zero =>
    constructor
    · intro r hr
      simp [ocp_stat_walk] at hr
    · simp [ocp_stat_walk]
  | succ fuel ih =>
    by_cases hd : dwords = 0
    · rw [ocp_stat_walk_stop buf _ pos dwords (Or.inl hd)]
      simp
    by_cases hid : le16 buf (4 * pos) = 0
    · rw [ocp_stat_walk_stop buf _ pos dwords (Or.inr hid)]
      simp
    rw [ocp_stat_walk_fst_cons buf fuel pos dwords hd hid]
    constructor
    · intro r hr
      rcases List.mem_cons.mp hr with h | h
      · subst h
        exact ocp_print_stat_desc_ok_iff _ _
      · exact (ih _ _).1 r h
    · refine List.chain'_cons'.mpr ⟨?_, (ih _ _).2⟩
      intro y hy
      have hpos := ocp_stat_walk_head_pos buf fuel
        (pos + statConsumedAt buf pos)
        (wsub64 dwords (statConsumedAt buf pos)) y hy
      rw [hpos]
      rfl

/-- Witness for C4: on region `bufC4mid` the walk reports the valid first
and third descriptors as decoded and the middle descriptor (statistic type
nibble 3) as skipped, and the skip criterion instantiates at that record. -/
theorem stat_walk_malformed_skip_witness :
    ((ocp_stat_walk bufC4mid 10 0 8).1.map StatRecView.decoded =
      [true, false, true]) ∧
    ((⟨3, 2, 3, 0, 0, false⟩ : StatRecView).decoded = false ↔
      2 < (⟨3, 2, 3, 0, 0, false⟩ : StatRecView).stat_type ∨
        4 < (⟨3, 2, 3, 0, 0, false⟩ : StatRecView).data_type) :=
  ⟨by decide,
   (stat_walk_malformed_skip bufC4mid 10 0 8).1 ⟨3, 2, 3, 0, 0, false⟩
     (by decide)⟩

/-- C4 counterexample: on region `bufC4arr` the single ARRAY descriptor's
body extent `(element_size+1)*(number_of_elements+1) = 1` byte disagrees
with its header's `6*4 - 4 = 20` declared body bytes, yet the record is
decoded (`decoded = true`), not skipped as the claim states. -/
theorem array_extent_mismatch_not_skipped :
    ((bget bufC4arr 8 + 1) * (le16 bufC4arr 10 + 1) ≠ 6 * 4 - 4) ∧
    ((ocp_stat_walk bufC4arr 5 0 8).1.map StatRecView.stat_type = [1]) ∧
    ((ocp_stat_walk bufC4arr 5 0 8).1.map StatRecView.decoded = [true]) := by
  decide

/-- C5 (amended): on every statistics region in which each descriptor's
declared `2 + statistic_data_size` dwords fit into the remaining count
(`ocp_stat_walk_fits`), the walk terminates, each step consumes exactly
`(8/4) + statistic_data_size` dwords, the walk stops exactly at a zero
`statistics_id` or at counter exhaustion, and the sum of per-record lengths
equals the consumed prefix of the buffer — final position
`pos + sumConsumed` and final counter `dwords - sumConsumed`. -/
theorem stat_walk_exhaustion (buf : List Nat) (fuel pos dwords : Nat)
    (hdw : dwords < UINT64_MOD)
    (hfit : ocp_stat_walk_fits buf fuel pos dwords = true) :
    sumConsumed (ocp_stat_walk buf fuel pos dwords).1 +
        (ocp_stat_walk buf fuel pos dwords).2.2 = dwords ∧
    (ocp_stat_walk buf fuel pos dwords).2.1 =
        pos + sumConsumed (ocp_stat_walk buf fuel pos dwords).1 ∧
    ((ocp_stat_walk buf fuel pos dwords).2.2 = 0 ∨
      le16 buf (4 * (ocp_stat_walk buf fuel pos dwords).2.1) = 0) := by
  induction fuel generalizing pos dwords with
  | zero =>
    have hstop : dwords = 0 ∨ le16 buf (4 * pos) = 0 := by
      simpa [ocp_stat_walk_fits] using hfit
    rw [ocp_stat_walk_stop buf 0 pos dwords hstop]
    simpa [sumConsumed] using hstop
  | succ fuel ih =>
    by_cases hd : dwords = 0
    · rw [ocp_stat_walk_stop buf _ pos dwords (Or.inl hd)]
      simp [sumConsumed, hd]
    by_cases hid : le16 buf (4 * pos) = 0
    · rw [ocp_stat_walk_stop buf _ pos dwords (Or.inr hid)]
      simp [sumConsumed, hid]
    have hfit2 : statConsumedAt buf pos ≤ dwords ∧
        ocp_stat_walk_fits buf fuel (pos + statConsumedAt buf pos)
          (dwords - statConsumedAt buf pos) = true := by
      unfold ocp_stat_walk_fits at hfit
      rw [if_neg hd, if_neg hid] at hfit
      simpa [statConsumedAt] using hfit
    obtain ⟨hle, hfit3⟩ := hfit2
    have hws : wsub64 dwords (statConsumedAt buf pos) =
        dwords - statConsumedAt buf pos := wsub64_of_le _ _ hdw hle
    have ihs := ih (pos + statConsumedAt buf pos)
      (dwords - statConsumedAt buf pos) (by omega) hfit3
    rw [ocp_stat_walk_fst_cons buf fuel pos dwords hd hid,
      ocp_stat_walk_snd_cons buf fuel pos dwords hd hid, hws] at *
    have hsum : sumConsumed (statRecAt buf pos ::
        (ocp_stat_walk buf fuel (pos + statConsumedAt buf pos)
          (dwords - statConsumedAt buf pos)).1) =
        statConsumedAt buf pos +
          sumConsumed (ocp_stat_walk buf fuel (pos + statConsumedAt buf pos)
            (dwords - statConsumedAt buf pos)).1 := by
      simp [sumConsumed, statRecAt, statConsumedAt]
    rw [hsum]
    refine ⟨by omega, by omega, ?_⟩
    exact ihs.2.2

/-- Witness for C5: the well-formed region `bufC5ok`, walked as 6 dwords,
fits; its two records consume `3 + 2 = 5` dwords, the final position is
dword 5, and the walk stops at the zero sentinel with 1 dword left. -/
theorem stat_walk_exhaustion_witness :
    sumConsumed (ocp_stat_walk bufC5ok 10 0 6).1 +
        (ocp_stat_walk bufC5ok 10 0 6).2.2 = 6 ∧
    (ocp_stat_walk bufC5ok 10 0 6).2.1 =
        0 + sumConsumed (ocp_stat_walk bufC5ok 10 0 6).1 ∧
    ((ocp_stat_walk bufC5ok 10 0 6).2.2 = 0 ∨
      le16 bufC5ok (4 * (ocp_stat_walk bufC5ok 10 0 6).2.1) = 0) :=
  stat_walk_exhaustion bufC5ok 10 0 6 (by decide) (by decide)

/-- C5 counterexample: on the 3-dword region `bufC5bad` whose single
descriptor declares 5 body dwords, the walked record lengths sum to 7 —
more than the whole region, so not the length of any consumed prefix of the
buffer — and the `size_t` counter underflows to `2^64 - 4` instead of
stopping at exhaustion. -/
theorem stat_walk_overrun_counterexample :
    sumConsumed (ocp_stat_walk bufC5bad 5 0 3).1 = 7 ∧
    ¬ (sumConsumed (ocp_stat_walk bufC5bad 5 0 3).1 ≤ 3) ∧
    (ocp_stat_walk bufC5bad 5 0 3).2.2 = 2 ^ 64 - 4 := by decide

end OcpTelemetry
